import Mathlib

/-!
Verification of the navigation-extraction and flattening pipeline of the
`uob-sharepoint-scraper` repository (`src/scraper/navbar_parser.py`,
`src/scraper/navbar_helpers.py`, `src/scraper/config.py`).

The Python code is shallowly embedded: dictionaries become structures,
`Optional[...]` values become `Option`, exceptions (`TypeError` raised on
subscripting `None`, and `assert` failures) become `Except` results.
Machine-level concerns do not arise: the code manipulates strings, lists
and small natural numbers only.
-/

/-! ## String helpers

Python `str.startswith` / `str.endswith` / truthiness are modelled over the
character list (`String.data`) of the Lean string. -/

/-- Boolean list-prefix test (`l` starts with `p`). -/
def listIsPre (p l : List Char) : Bool :=
  match p, l with
  | [], _ => true
  | _ :: _, [] => false
  | a :: as, b :: bs => (a == b) && listIsPre as bs

/-- Python `s.startswith(p)`. -/
def strStartsWith (s p : String) : Bool :=
  listIsPre p.data s.data

/-- Python `s.endswith(p)`: `p` is a suffix of `s`. -/
def strEndsWith (s p : String) : Bool :=
  listIsPre p.data.reverse s.data.reverse

/-- Python truthiness of an optional string: `None` and the empty string are
falsy, every other string is truthy. -/
def truthyStr : Option String → Bool
  | none => false
  | some s => !s.data.isEmpty

/-! ## `config.py` -/

/-- `SITE_ROOT` from `src/scraper/config.py`. -/
def SITE_ROOT : String := "https://uob.sharepoint.com"

/-! ## `slugify`

The source calls the external `python-slugify` library:
`slugify(title)`.  Modelled as the deterministic ASCII core of that
transform: lowercase, runs of non-alphanumeric characters collapse to a
single separator, separators are stripped at both ends.  No claim depends
on the internals of this transform; it only matters that the slug is a
deterministic function of the title. -/

/-- Collapse consecutive separator characters into one. -/
def collapseDashes : List Char → List Char
  | [] => []
  | c :: cs =>
    let r := collapseDashes cs
    if c == '-' then
      match r with
      | '-' :: _ => r
      | _ => c :: r
    else c :: r

/-- Model of the external `slugify` library call used in `flatten_items`. -/
def slugify (s : String) : String :=
  let mapped := s.data.map (fun c => if c.isAlphanum then c.toLower else '-')
  let collapsed := collapseDashes mapped
  let trimmed :=
    ((collapsed.dropWhile (fun c => c == '-')).reverse.dropWhile
      (fun c => c == '-')).reverse
  ⟨trimmed⟩

/-! ## Data model (`src/scraper/data_types/navbar.py`)

`NavbarItem` is the hierarchical structure returned by
`extract_navbar_item`.  In the source that function returns
`Optional[NavbarItem]`, and a node's `children` list holds the raw results
of recursive calls, i.e. values of type `Optional[NavbarItem]` — a
titleless child is stored as `None` inside its parent's `children`.  The
inductive below embeds exactly those runtime values: the constructor
`skip` is the Python `None`, `node` is the populated dictionary. -/

inductive NavbarItem where
  /-- Python `None`: the result of extracting an item whose `Title` is null. -/
  | skip : NavbarItem
  /-- A populated navigation item dictionary. -/
  | node (title : String) (url : Option String) (is_external : Option Bool)
      (base_level : Nat) (children : List NavbarItem) : NavbarItem

/-- `True` exactly when the value is the Python `None` placeholder. -/
def NavbarItem.isSkip : NavbarItem → Bool
  | .skip => true
  | .node _ _ _ _ _ => false

/-- `NavbarItemProcessed` from `src/scraper/data_types/navbar.py`: one flat
navigation entry. -/
structure NavbarItemProcessed where
  title : String
  slug : String
  base_url : Option String
  url : Option String
  is_external : Option Bool
  base_level : Nat
  scrape : Bool
  should_be_scraped : Bool
  level : Nat
deriving DecidableEq, Repr

/-! ## Raw payload items (`quickLaunch` entries)

The raw dictionaries taken from the parsed JSON payload.  The source reads
`item["Title"]`, `item["Url"]`, `item["Children"]` and
`item["IsExternal"] if "IsExternal" in item.keys() else None`; a `Title`
or `Url` key holding JSON `null` becomes `none`, and a missing or null
`IsExternal` becomes `none`. -/

inductive RawNavItem where
  | mk (Title : Option String) (Url : Option String)
      (IsExternal : Option Bool) (Children : List RawNavItem) : RawNavItem

/-! ## `extract_navbar_item` / `get_navbar_items` (`navbar_parser.py`) -/

mutual
/-- `extract_navbar_item` from `src/scraper/navbar_parser.py`: a null
`Title` yields Python `None` (here `.skip`); otherwise the item dictionary
is built and the children are extracted recursively at `base_level + 1`,
keeping `None` results in place. -/
def extract_navbar_item : RawNavItem → Nat → NavbarItem
  | .mk Title Url IsExternal Children, base_level =>
    match Title with
    | none => .skip
    | some title =>
        .node title Url IsExternal base_level
          (extract_children Children (base_level + 1))

/-- The list comprehension `[extract_navbar_item(_, base_level=base_level+1)
for _ in item["Children"]]`. -/
def extract_children : List RawNavItem → Nat → List NavbarItem
  | [], _ => []
  | c :: cs, d => extract_navbar_item c d :: extract_children cs d
end

/-- `get_navbar_items` from `src/scraper/navbar_parser.py`: map
`extract_navbar_item` over the payload and drop the top-level `None`
results. -/
def get_navbar_items (quick_launch_data : List RawNavItem)
    (base_level : Nat) : List NavbarItem :=
  ((quick_launch_data.map (fun r => extract_navbar_item r base_level)).filter
    (fun n => !n.isSkip))

/-! ## `flatten_items` (`navbar_helpers.py`)

`_transform` returns the singleton list `[entry]` concatenated with the
list of recursive results, so the value handed to pydash is a nested list;
`py_.flatten_deep` then flattens it to arbitrary depth.  `Nested` embeds
such nested lists.  Subscripting the Python `None` placeholder
(`item["title"]` with `item is None`) raises `TypeError`, embedded as
`Except.error ()`. -/

inductive Nested (α : Type) where
  | leaf : α → Nested α
  | list : List (Nested α) → Nested α

mutual
/-- `py_.flatten_deep`: flatten nesting of arbitrary depth. -/
def flattenDeep {α : Type} : Nested α → List α
  | .leaf a => [a]
  | .list l => flattenDeepList l

/-- `flattenDeep` mapped over a list of nested values, concatenated. -/
def flattenDeepList {α : Type} : List (Nested α) → List α
  | [] => []
  | n :: ns => flattenDeep n ++ flattenDeepList ns
end

/-- The flat dictionary built for one item by `_transform` inside
`flatten_items` (lines 40-51 of `navbar_helpers.py`). -/
def flat_entry (title : String) (url : Option String)
    (is_external : Option Bool) (base_level : Nat) : NavbarItemProcessed :=
  { title := title
    slug := slugify title
    base_url := url
    url := url
    is_external := is_external
    base_level := base_level
    scrape := false
    should_be_scraped := false
    level := base_level + 1 }

mutual
/-- `_transform` from `flatten_items`: build the parent entry and recurse
into the children.  On the Python `None` placeholder, `item["title"]`
raises `TypeError` (`Except.error ()`). -/
def transform : NavbarItem → Except Unit (Nested NavbarItemProcessed)
  | .skip => .error ()
  | .node t u ie b cs =>
    match transform_children cs with
    | .error e => .error e
    | .ok ns => .ok (.list (.leaf (flat_entry t u ie b) :: ns))

/-- The list comprehension `[_transform(_) for _ in item["children"]]`,
evaluated left to right, propagating the first exception. -/
def transform_children :
    List NavbarItem → Except Unit (List (Nested NavbarItemProcessed))
  | [] => .ok []
  | c :: cs =>
    match transform c with
    | .error e => .error e
    | .ok n =>
      match transform_children cs with
      | .error e => .error e
      | .ok ns => .ok (n :: ns)
end

/-- `flatten_items` from `src/scraper/navbar_helpers.py`:
`py_.chain(items).map(_transform).flatten_deep().value()`. -/
def flatten_items (items : List NavbarItem) :
    Except Unit (List NavbarItemProcessed) :=
  match transform_children items with
  | .error e => .error e
  | .ok ns => .ok (flattenDeepList ns)

/-! ## `update_url` (`navbar_helpers.py`) -/

/-- The `block_pages` list from `update_url`. -/
def block_pages : List String := ["AllItems.aspx", "admin-centre.aspx", "news.aspx"]

/-- The `block_urls` list from `update_url`. -/
def block_urls : List String := ["http://linkless.header/"]

/-- The body of the `for` loop of `update_url`, acting on one item.  The
four steps run in source order as sequential overwrites; outside the
`base_url is not None` guard the item is untouched. -/
def update_one (site_slug : String) (item : NavbarItemProcessed) :
    NavbarItemProcessed :=
  match item.base_url with
  | none => item
  | some b =>
    let item1 :=
      if strStartsWith b "/sites/" then
        { item with url := some (SITE_ROOT ++ b) }
      else item
    let item2 :=
      if strStartsWith b ("/sites/" ++ site_slug) && strEndsWith b ".aspx" then
        { item1 with scrape := true, should_be_scraped := true }
      else item1
    let in_block_pages := block_pages.any (fun e => strEndsWith b e)
    let item3 :=
      if in_block_pages then
        { item2 with scrape := false, should_be_scraped := false }
      else item2
    if b ∈ block_urls then { item3 with url := none } else item3

/-- `update_url` from `src/scraper/navbar_helpers.py`.  The source mutates
each list element in place and returns the list; embedded as a map. -/
def update_url (items : List NavbarItemProcessed) (site_slug : String) :
    List NavbarItemProcessed :=
  items.map (update_one site_slug)

/-! ## `get_pages_to_scrape` (`navbar_helpers.py`)

The comprehension filter is `item.get("scrape", False) and
item.get("url")`; the second conjunct is Python truthiness of the `url`
value, so a `None` url and an empty-string url are both rejected. -/

/-- `get_pages_to_scrape` from `src/scraper/navbar_helpers.py`. -/
def get_pages_to_scrape (items : List NavbarItemProcessed) :
    List NavbarItemProcessed :=
  items.filter (fun item => item.scrape && truthyStr item.url)

/-! ## `get_quick_launch_data` (`navbar_parser.py`)

The function works on a parsed HTML soup; its observable input is the
sequence of script-tag strings (`str(e)` for each `<script>` element).
`json.loads` is an external library call, embedded as an arbitrary
function `jsonParse : String → Option Json` (`none` is a JSON decode
error).  Each of the source's `assert` statements is a distinct abort
point, embedded as a distinct `ExtractError` constructor. -/

/-- Minimal JSON value model for the parsed navigation payload. -/
inductive Json where
  | null : Json
  | bool (b : Bool) : Json
  | str (s : String) : Json
  | num (n : Int) : Json
  | arr (elems : List Json) : Json
  | obj (fields : List (String × Json)) : Json

/-- Python `d[key]` on the association-list model of a dict. -/
def lookupKey : List (String × Json) → String → Option Json
  | [], _ => none
  | (k, v) :: rest, key => if k = key then some v else lookupKey rest key

/-- The distinct fatal failures of `get_quick_launch_data`.  In the source
each is a separate uncaught exception site: the three `assert` statements
(no marker script, regex mismatch, schema mismatch) and the
`json.JSONDecodeError` that `json.loads` raises on malformed input. -/
inductive ExtractError where
  | PayloadNotFound : ExtractError
  | PayloadMalformed : ExtractError
  | SchemaMismatch : ExtractError
  | JsonDecodeError : ExtractError
deriving DecidableEq, Repr

/-- Boolean substring test (`pat in s` for Python strings), over character
lists. -/
def containsSub (pat : List Char) : List Char → Bool
  | [] => pat.isEmpty
  | c :: rest => listIsPre pat (c :: rest) || containsSub pat rest

/-- The filter predicate `"navigationInfo" in str(e)` applied to each
script tag. -/
def hasMarker (s : String) : Bool :=
  containsSub "navigationInfo".data s.data

/-- The literal before group 1 of the regex
`"navigationInfo":(.*)(,"appBarParams")`. -/
def navOpen : List Char := "\"navigationInfo\":".data

/-- The literal of group 2 of the same regex. -/
def navClose : List Char := ",\"appBarParams\"".data

/-- The greedy group 1: the longest prefix of `l` that is followed by an
occurrence of `navClose` (i.e. the text up to the rightmost occurrence),
or `none` when `navClose` does not occur in `l`. -/
def greedyGroup : List Char → Option (List Char)
  | [] => none
  | c :: rest =>
    match greedyGroup rest with
    | some g => some (c :: g)
    | none => if listIsPre navClose (c :: rest) then some [] else none

/-- `re.search` of `"navigationInfo":(.*)(,"appBarParams")` scanning from
the left: at each position where the opening literal matches, the greedy
`.*` (which cannot cross a newline) must reach an occurrence of the
closing literal on the same line; otherwise the scan moves right. -/
def searchFrom : List Char → Option (List Char)
  | [] => none
  | c :: rest =>
    if listIsPre navOpen (c :: rest) then
      let after := (c :: rest).drop navOpen.length
      let line := after.takeWhile (fun ch => ch != '\n')
      match greedyGroup line with
      | some g => some g
      | none => searchFrom rest
    else searchFrom rest

/-- Group 1 of `re.search('"navigationInfo":(.*)(,"appBarParams")', s)`,
or `none` when the pattern does not match. -/
def reSearchNavigationInfo (s : String) : Option String :=
  (searchFrom s.data).map (fun g => ⟨g⟩)

/-- `get_quick_launch_data` from `src/scraper/navbar_parser.py`, over the
script-tag strings of the soup.  Mirrors the source's control flow: filter
the scripts by the marker, assert a match exists (`PayloadNotFound`), run
the regex on the first one (`PayloadMalformed` when it does not match),
parse the group as JSON (`JsonDecodeError` on a parse failure), assert the
result is a dict containing `"quickLaunch"` (`SchemaMismatch`), and return
that value. -/
def get_quick_launch_data (jsonParse : String → Option Json)
    (script_tags : List String) : Except ExtractError Json :=
  match script_tags.filter hasMarker with
  | [] => .error .PayloadNotFound
  | navigation_info :: _ =>
    match reSearchNavigationInfo navigation_info with
    | none => .error .PayloadMalformed
    | some g =>
      match jsonParse g with
      | none => .error .JsonDecodeError
      | some j =>
        match j with
        | .obj fields =>
          match lookupKey fields "quickLaunch" with
          | none => .error .SchemaMismatch
          | some v => .ok v
        | _ => .error .SchemaMismatch

/-! ## Specification-side definitions

These are written from the spec's words, to be compared with the
source-derived definitions above. -/

mutual
/-- From the spec: "one RawNavNode yields exactly one FlatNavEntry for
itself plus the flattened entries of all its children, appended depth-first
in source order — parent immediately followed by its own subtree, siblings
processed in original order": the pre-order traversal.  (A `skip`
placeholder has no entry of its own and no reachable children.) -/
def preorder : NavbarItem → List NavbarItemProcessed
  | .skip => []
  | .node t u ie b cs => flat_entry t u ie b :: preorderForest cs

/-- Pre-order traversal of a forest, siblings in original order. -/
def preorderForest : List NavbarItem → List NavbarItemProcessed
  | [] => []
  | n :: ns => preorder n ++ preorderForest ns
end

mutual
/-- `true` when no Python `None` placeholder occurs anywhere in the tree. -/
def noSkip : NavbarItem → Bool
  | .skip => false
  | .node _ _ _ _ cs => noSkipForest cs

/-- `true` when no Python `None` placeholder occurs anywhere in the forest. -/
def noSkipForest : List NavbarItem → Bool
  | [] => true
  | c :: cs => noSkip c && noSkipForest cs
end

mutual
/-- From the spec: the nesting depths of the originating nodes, listed in
pre-order — the root of a tree rooted at nesting depth `d` contributes `d`,
and each child lies at its parent's depth plus one. -/
def nodeDepths (d : Nat) : NavbarItem → List Nat
  | .skip => []
  | .node _ _ _ _ cs => d :: forestDepths (d + 1) cs

/-- `nodeDepths` over a forest whose trees are all rooted at depth `d`. -/
def forestDepths (d : Nat) : List NavbarItem → List Nat
  | [] => []
  | n :: ns => nodeDepths d n ++ forestDepths d ns
end

mutual
/-- The stored `base_level` of every node equals its nesting depth, for a
tree rooted at nesting depth `d`. -/
def leveledNode (d : Nat) : NavbarItem → Bool
  | .skip => true
  | .node _ _ _ b cs => (b == d) && leveledForest (d + 1) cs

/-- `leveledNode` over a forest rooted at depth `d`. -/
def leveledForest (d : Nat) : List NavbarItem → Bool
  | [] => true
  | n :: ns => leveledNode d n && leveledForest d ns
end

/-! ## Sample data

Concrete inputs used to instantiate the theorems below; the trees follow
the scenarios of the spec (a small site with one nested child, a blocked
news page, a link-less header, a titleless node). -/

/-- A small skip-free forest: "Home" with child "About", plus an external
top-level link. -/
def sampleForest : List NavbarItem :=
  [.node "Home" (some "/sites/acme/") (some false) 0
    [.node "About" (some "/sites/acme/about.aspx") (some false) 1 []],
   .node "External" (some "https://example.org/") (some true) 0 []]

/-- A flat entry for a news page of the target site. -/
def blockedSample : NavbarItemProcessed :=
  flat_entry "News" (some "/sites/acme/news.aspx") (some false) 0

/-- A flat entry whose `base_url` is the link-less sentinel. -/
def linklessSample : NavbarItemProcessed :=
  flat_entry "Header" (some "http://linkless.header/") none 0

/-- A flat entry for a regular content page of the target site. -/
def sitesSample : NavbarItemProcessed :=
  flat_entry "About" (some "/sites/acme/about.aspx") (some false) 1

/-- A flat entry with no URL at all. -/
def nullUrlSample : NavbarItemProcessed :=
  flat_entry "Group" none none 0

/-- A raw payload item with a null `Title`. -/
def titlelessChildRaw : RawNavItem :=
  .mk none (some "/sites/acme/child.aspx") (some false) []

/-- A raw payload item whose children contain a titleless item. -/
def parentRaw : RawNavItem :=
  .mk (some "Parent") (some "/sites/acme/") (some false) [titlelessChildRaw]

/-- A raw payload forest mirroring `sampleForest`. -/
def sampleRaws : List RawNavItem :=
  [.mk (some "Home") (some "/sites/acme/") (some false)
    [.mk (some "About") (some "/sites/acme/about.aspx") (some false) []],
   .mk (some "External") (some "https://example.org/") (some true) []]

/-- A JSON parser stub that fails on every input; the extractor's
behaviour before the parse step does not depend on the parser. -/
def jsonParseNone : String → Option Json := fun _ => none

/-! ## Helper lemmas -/

theorem listIsPre_append {p q l : List Char}
    (h : listIsPre (p ++ q) l = true) : listIsPre p l = true := by
  induction p generalizing l with
  | nil => simp [listIsPre]
  | cons a as ih =>
    cases l with
    | nil => simp [listIsPre] at h
    | cons b bs =>
      simp only [List.cons_append, listIsPre, Bool.and_eq_true] at h ⊢
      exact ⟨h.1, ih h.2⟩

theorem strStartsWith_mono {s p q : String}
    (h : strStartsWith s (p ++ q) = true) : strStartsWith s p = true := by
  simp only [strStartsWith, String.data_append] at h
  exact listIsPre_append h

theorem truthyStr_site_root (b : String) :
    truthyStr (some (SITE_ROOT ++ b)) = true := by
  have hne : SITE_ROOT.data = 'h' :: "ttps://uob.sharepoint.com".data := by decide
  simp only [truthyStr, String.data_append, hne, List.cons_append, List.isEmpty]
  rfl

mutual
theorem transform_ok_of_noSkip (n : NavbarItem) (h : noSkip n = true) :
    ∃ x, transform n = .ok x ∧ flattenDeep x = preorder n := by
  cases n with
  | skip => simp [noSkip] at h
  | node t u ie b cs =>
    rw [noSkip] at h
    obtain ⟨xs, hok, hflat⟩ := transform_children_ok_of_noSkip cs h
    refine ⟨.list (.leaf (flat_entry t u ie b) :: xs), ?_, ?_⟩
    · rw [transform, hok]
    · rw [flattenDeep, flattenDeepList, flattenDeep, hflat, preorder]
      rfl

theorem transform_children_ok_of_noSkip (l : List NavbarItem)
    (h : noSkipForest l = true) :
    ∃ xs, transform_children l = .ok xs ∧
      flattenDeepList xs = preorderForest l := by
  cases l with
  | nil => exact ⟨[], by rw [transform_children], by rw [flattenDeepList, preorderForest]⟩
  | cons c cs =>
    rw [noSkipForest, Bool.and_eq_true] at h
    obtain ⟨x, hok, hflat⟩ := transform_ok_of_noSkip c h.1
    obtain ⟨xs, hoks, hflats⟩ := transform_children_ok_of_noSkip cs h.2
    refine ⟨x :: xs, ?_, ?_⟩
    · rw [transform_children, hok, hoks]
    · rw [flattenDeepList, hflat, hflats, preorderForest]
end

mutual
theorem noSkip_of_transform_ok (n : NavbarItem)
    (x : Nested NavbarItemProcessed) (h : transform n = .ok x) :
    noSkip n = true := by
  cases n with
  | skip => rw [transform] at h; exact absurd h (by simp)
  | node t u ie b cs =>
    rw [transform] at h
    cases hc : transform_children cs with
    | error e => rw [hc] at h; exact absurd h (by simp)
    | ok ns => rw [noSkip]; exact noSkipForest_of_transform_children_ok cs ns hc

theorem noSkipForest_of_transform_children_ok (l : List NavbarItem)
    (xs : List (Nested NavbarItemProcessed))
    (h : transform_children l = .ok xs) : noSkipForest l = true := by
  cases l with
  | nil => rw [noSkipForest]
  | cons c cs =>
    rw [transform_children] at h
    cases hc : transform c with
    | error e => rw [hc] at h; exact absurd h (by simp)
    | ok n =>
      rw [hc] at h
      cases hcs : transform_children cs with
      | error e => rw [hcs] at h; exact absurd h (by simp)
      | ok ns =>
        rw [noSkipForest, Bool.and_eq_true]
        exact ⟨noSkip_of_transform_ok c n hc,
          noSkipForest_of_transform_children_ok cs ns hcs⟩
end

theorem flatten_eq_of_noSkip (items : List NavbarItem)
    (h : noSkipForest items = true) :
    flatten_items items = .ok (preorderForest items) := by
  obtain ⟨xs, hok, hflat⟩ := transform_children_ok_of_noSkip items h
  rw [flatten_items, hok]
  exact congrArg Except.ok hflat

theorem flatten_ok_inv (items : List NavbarItem)
    (l : List NavbarItemProcessed) (h : flatten_items items = .ok l) :
    noSkipForest items = true ∧ l = preorderForest items := by
  rw [flatten_items] at h
  cases hc : transform_children items with
  | error e => rw [hc] at h; exact absurd h (by simp)
  | ok xs =>
    have hns := noSkipForest_of_transform_children_ok items xs hc
    have := flatten_eq_of_noSkip items hns
    rw [flatten_items, hc] at this
    rw [hc] at h
    simp only [Except.ok.injEq] at h this
    exact ⟨hns, h ▸ this⟩

mutual
theorem preorder_entry_facts (n : NavbarItem) (e : NavbarItemProcessed)
    (h : e ∈ preorder n) :
    e.level = e.base_level + 1 ∧ e.scrape = false ∧
      e.should_be_scraped = false ∧ e.url = e.base_url := by
  cases n with
  | skip => rw [preorder] at h; exact absurd h (by simp)
  | node t u ie b cs =>
    rw [preorder] at h
    rcases List.mem_cons.mp h with he | he
    · subst he
      exact ⟨rfl, rfl, rfl, rfl⟩
    · exact preorderForest_entry_facts cs e he

theorem preorderForest_entry_facts (l : List NavbarItem)
    (e : NavbarItemProcessed) (h : e ∈ preorderForest l) :
    e.level = e.base_level + 1 ∧ e.scrape = false ∧
      e.should_be_scraped = false ∧ e.url = e.base_url := by
  cases l with
  | nil => rw [preorderForest] at h; exact absurd h (by simp)
  | cons n ns =>
    rw [preorderForest] at h
    rcases List.mem_append.mp h with he | he
    · exact preorder_entry_facts n e he
    · exact preorderForest_entry_facts ns e he
end

mutual
theorem preorder_base_level_eq_depth (n : NavbarItem) (d : Nat)
    (h : leveledNode d n = true) :
    (preorder n).map (fun e => e.base_level) = nodeDepths d n := by
  cases n with
  | skip => rw [preorder, nodeDepths]; rfl
  | node t u ie b cs =>
    rw [leveledNode, Bool.and_eq_true, beq_iff_eq] at h
    rw [preorder, nodeDepths, List.map_cons,
      preorderForest_base_level_eq_depth cs (d + 1) h.2]
    exact congrArg (· :: _) h.1

theorem preorderForest_base_level_eq_depth (l : List NavbarItem) (d : Nat)
    (h : leveledForest d l = true) :
    (preorderForest l).map (fun e => e.base_level) = forestDepths d l := by
  cases l with
  | nil => rw [preorderForest, forestDepths]; rfl
  | cons n ns =>
    rw [leveledForest, Bool.and_eq_true] at h
    rw [preorderForest, forestDepths, List.map_append,
      preorder_base_level_eq_depth n d h.1,
      preorderForest_base_level_eq_depth ns d h.2]
end

mutual
theorem extract_leveled (r : RawNavItem) (d : Nat) :
    leveledNode d (extract_navbar_item r d) = true := by
  cases r with
  | mk Title Url IsExternal Children =>
    cases Title with
    | none => rw [extract_navbar_item, leveledNode]
    | some t =>
      rw [extract_navbar_item, leveledNode, Bool.and_eq_true, beq_iff_eq]
      exact ⟨rfl, extract_children_leveled Children (d + 1)⟩

theorem extract_children_leveled (rs : List RawNavItem) (d : Nat) :
    leveledForest d (extract_children rs d) = true := by
  cases rs with
  | nil => rw [extract_children, leveledForest]
  | cons c cs =>
    rw [extract_children, leveledForest, Bool.and_eq_true]
    exact ⟨extract_leveled c d, extract_children_leveled cs d⟩
end

theorem leveledForest_mem (d : Nat) (l : List NavbarItem)
    (h : leveledForest d l = true) :
    ∀ n ∈ l, leveledNode d n = true := by
  induction l with
  | nil => intro n hn; exact absurd hn (by simp)
  | cons c cs ih =>
    rw [leveledForest, Bool.and_eq_true] at h
    intro n hn
    rcases List.mem_cons.mp hn with hn | hn
    · exact hn ▸ h.1
    · exact ih h.2 n hn

theorem leveledForest_of_mem (d : Nat) (l : List NavbarItem)
    (h : ∀ n ∈ l, leveledNode d n = true) :
    leveledForest d l = true := by
  induction l with
  | nil => rw [leveledForest]
  | cons c cs ih =>
    rw [leveledForest, Bool.and_eq_true]
    exact ⟨h c (by simp), ih (fun n hn => h n (List.mem_cons_of_mem c hn))⟩

theorem get_navbar_items_leveled (raws : List RawNavItem) (d : Nat) :
    leveledForest d (get_navbar_items raws d) = true := by
  apply leveledForest_of_mem
  intro n hn
  have hn2 := List.mem_of_mem_filter hn
  obtain ⟨r, _, hr⟩ := List.mem_map.mp hn2
  exact hr ▸ extract_leveled r d

theorem update_one_none (slug : String) (e : NavbarItemProcessed)
    (h : e.base_url = none) : update_one slug e = e := by
  rcases e with ⟨t, sl, bu, u, ie, bl, sc, sh, lv⟩
  simp only at h
  subst h
  rfl

theorem update_one_frame (slug : String) (e : NavbarItemProcessed) :
    (update_one slug e).title = e.title ∧
    (update_one slug e).slug = e.slug ∧
    (update_one slug e).base_url = e.base_url ∧
    (update_one slug e).is_external = e.is_external ∧
    (update_one slug e).base_level = e.base_level ∧
    (update_one slug e).level = e.level := by
  rcases e with ⟨t, sl, bu, u, ie, bl, sc, sh, lv⟩
  cases bu with
  | none => simp [update_one]
  | some b =>
    simp only [update_one]
    split_ifs <;> simp

theorem update_one_blocked (slug : String) (e : NavbarItemProcessed)
    (b : String) (hb : e.base_url = some b)
    (hblock : block_pages.any (fun p => strEndsWith b p) = true) :
    (update_one slug e).scrape = false ∧
      (update_one slug e).should_be_scraped = false := by
  rcases e with ⟨t, sl, bu, u, ie, bl, sc, sh, lv⟩
  simp only at hb
  subst hb
  simp only [update_one, hblock]
  split_ifs <;> simp

theorem update_one_linkless (slug : String) (e : NavbarItemProcessed)
    (hb : e.base_url = some "http://linkless.header/") :
    (update_one slug e).url = none := by
  rcases e with ⟨t, sl, bu, u, ie, bl, sc, sh, lv⟩
  simp only at hb
  subst hb
  simp only [update_one, block_urls]
  split_ifs <;> simp_all

theorem update_one_sites (slug : String) (e : NavbarItemProcessed)
    (b : String) (hb : e.base_url = some b)
    (hpre : strStartsWith b "/sites/" = true)
    (hne : b ≠ "http://linkless.header/") :
    (update_one slug e).url = some (SITE_ROOT ++ b) := by
  rcases e with ⟨t, sl, bu, u, ie, bl, sc, sh, lv⟩
  simp only at hb
  subst hb
  simp only [update_one, block_urls, hpre, if_true]
  split_ifs <;> simp_all

theorem update_one_flag_pair (slug : String) (e : NavbarItemProcessed)
    (h : e.scrape = e.should_be_scraped) :
    (update_one slug e).scrape = (update_one slug e).should_be_scraped := by
  rcases e with ⟨t, sl, bu, u, ie, bl, sc, sh, lv⟩
  simp only at h
  cases bu with
  | none => simpa [update_one] using h
  | some b =>
    simp only [update_one]
    split_ifs <;> simp_all

theorem update_one_scrape_true_url (slug : String) (e : NavbarItemProcessed)
    (hsc : e.scrape = false) (hu : e.url = e.base_url)
    (h : (update_one slug e).scrape = true) :
    truthyStr (update_one slug e).url = true := by
  rcases e with ⟨t, sl, bu, u, ie, bl, sc, sh, lv⟩
  simp only at hsc hu
  subst hsc
  subst hu
  cases u with
  | none => simp [update_one] at h
  | some b =>
    by_cases hincl : strStartsWith b ("/sites/" ++ slug) && strEndsWith b ".aspx" = true
    · have hpre : strStartsWith b "/sites/" = true :=
        strStartsWith_mono (Bool.and_eq_true .. ▸ hincl).1
      have hne : b ≠ "http://linkless.header/" := by
        intro hcontra
        rw [hcontra] at hpre
        exact absurd hpre (by decide)
      have hurl := update_one_sites slug ⟨t, sl, some b, some b, ie, bl, false, sh, lv⟩ b rfl hpre hne
      rw [hurl]
      exact truthyStr_site_root b
    · exfalso
      simp only [update_one, hincl] at h
      split_ifs at h <;> simp_all

mutual
theorem transform_error_of_skip (n : NavbarItem) (h : noSkip n = false) :
    transform n = .error () := by
  cases n with
  | skip => rw [transform]
  | node t u ie b cs =>
    rw [noSkip] at h
    rw [transform, transform_children_error_of_skip cs h]

theorem transform_children_error_of_skip (l : List NavbarItem)
    (h : noSkipForest l = false) : transform_children l = .error () := by
  cases l with
  | nil => rw [noSkipForest] at h; exact absurd h (by simp)
  | cons c cs =>
    rw [noSkipForest, Bool.and_eq_false_eq_eq_false_or_eq_false] at h
    rcases h with h | h
    · rw [transform_children, transform_error_of_skip c h]
    · cases hc : noSkip c with
      | false => rw [transform_children, transform_error_of_skip c hc]
      | true =>
        obtain ⟨x, hok, _⟩ := transform_ok_of_noSkip c hc
        rw [transform_children, hok, transform_children_error_of_skip cs h]
end

theorem flatten_error_of_skip (items : List NavbarItem)
    (h : noSkipForest items = false) : flatten_items items = .error () := by
  rw [flatten_items, transform_children_error_of_skip items h]

/-! ## Claim theorems -/

/-- C1: For every list of `RawNavNode` trees (trees with no titleless
placeholder, as the spec's `RawNavNode` requires a title), `flatten_items`
returns exactly the pre-order traversal of the forest: each node yields one
flat entry placed immediately before the flattened entries of its own
subtree, siblings in their original order. -/
theorem flatten_items_eq_preorder (items : List NavbarItem)
    (h : noSkipForest items = true) :
    flatten_items items = .ok (preorderForest items) :=
  flatten_eq_of_noSkip items h

/-- Witness for C1 on the concrete two-tree sample forest. -/
theorem flatten_items_eq_preorder_witness :
    noSkipForest sampleForest = true ∧
      flatten_items sampleForest = .ok (preorderForest sampleForest) :=
  ⟨by rfl, flatten_items_eq_preorder sampleForest (by rfl)⟩

/-- C2: after `update_url`, every entry whose `base_url` ends with one of
the fixed exclusion names (`AllItems.aspx`, `admin-centre.aspx`,
`news.aspx`) has both scrape flags false — in particular even when the
entry also matches the inclusion rule (starts with the target site's
prefix and ends with `.aspx`), since this statement is unconditional in
those facts, exclusion always overrides inclusion. -/
theorem update_url_block_pages_override (items : List NavbarItemProcessed)
    (site_slug : String) (e : NavbarItemProcessed) (b : String)
    (he : e ∈ update_url items site_slug) (hb : e.base_url = some b)
    (hblock : block_pages.any (fun p => strEndsWith b p) = true) :
    e.scrape = false ∧ e.should_be_scraped = false := by
  obtain ⟨a, _, ha⟩ := List.mem_map.mp he
  subst ha
  have hfr := (update_one_frame site_slug a).2.2.1
  rw [hfr] at hb
  exact update_one_blocked site_slug a b hb hblock

/-- Witness for C2: a news page of the target site (which also matches the
inclusion rule) ends up with both flags false. -/
theorem update_url_block_pages_override_witness :
    (update_one "acme" blockedSample).scrape = false ∧
      (update_one "acme" blockedSample).should_be_scraped = false :=
  update_url_block_pages_override [blockedSample] "acme"
    (update_one "acme" blockedSample) "/sites/acme/news.aspx"
    (by simp [update_url]) (by rfl) (by rfl)

/-- C3 counterexample: a titleless node nested inside another node's
children is *not* skipped silently — extraction keeps a null placeholder in
the parent's children list, and flattening the extracted forest then fails
with a `TypeError` (the `Except.error ()` here), instead of completing
normally with zero entries for the titleless node. -/
theorem nested_titleless_flatten_error :
    get_navbar_items [parentRaw] 0 =
      [.node "Parent" (some "/sites/acme/") (some false) 0 [.skip]] ∧
    flatten_items (get_navbar_items [parentRaw] 0) = .error () :=
  ⟨by rfl, by rfl⟩

/-- C3 (amended): a titleless raw node at the *top level* is skipped
without error and produces no flat entries for itself or its descendants;
but a titleless node *nested* inside another node's children is kept as a
null placeholder by extraction, and `flatten_items` then raises a
`TypeError` on the placeholder instead of skipping it, so the surrounding
flattening does not complete normally in the nested case. -/
theorem titleless_top_level_skipped_nested_fails
    (u u2 : Option String) (ie ie2 : Option Bool) (t : String)
    (cs cs2 rest : List RawNavItem) (d : Nat) (items : List NavbarItem)
    (h : noSkipForest items = false) :
    get_navbar_items (RawNavItem.mk none u ie cs :: rest) d =
        get_navbar_items rest d ∧
    noSkip (extract_navbar_item
        (RawNavItem.mk (some t) u2 ie2 (RawNavItem.mk none u ie cs :: cs2))
        d) = false ∧
    flatten_items items = .error () := by
  refine ⟨?_, ?_, flatten_error_of_skip items h⟩
  · rw [get_navbar_items, get_navbar_items, List.map_cons, List.filter_cons]
    rw [extract_navbar_item]
    rfl
  · rw [extract_navbar_item, extract_children, extract_navbar_item, noSkip,
      noSkipForest, noSkip]
    rfl

/-- Witness for C3's amended claim at concrete inputs. -/
theorem titleless_top_level_skipped_nested_fails_witness :
    get_navbar_items [titlelessChildRaw] 0 = get_navbar_items [] 0 ∧
    noSkip (extract_navbar_item
        (RawNavItem.mk (some "Parent") (some "/sites/acme/") (some false)
          [RawNavItem.mk none (some "/sites/acme/child.aspx") (some false) []])
        0) = false ∧
    flatten_items [NavbarItem.node "A" none none 0 [.skip]] = .error () :=
  titleless_top_level_skipped_nested_fails
    (some "/sites/acme/child.aspx") (some "/sites/acme/") (some false)
    (some false) "Parent" [] [] [] 0
    [NavbarItem.node "A" none none 0 [.skip]] (by rfl)

/-- C4: on every resolved flat list (the output of `update_url` on a
successfully flattened forest), `get_pages_to_scrape` returns exactly the
ordered sub-sequence of entries with `scrape = true` and non-null `url`:
the output is a sublist (order preserved), every output entry satisfies
both conditions, and no entry satisfying both is omitted. -/
theorem get_pages_to_scrape_exact (its : List NavbarItem) (slug : String)
    (l : List NavbarItemProcessed) (h : flatten_items its = .ok l) :
    List.Sublist (get_pages_to_scrape (update_url l slug)) (update_url l slug) ∧
    (∀ e ∈ get_pages_to_scrape (update_url l slug),
      e.scrape = true ∧ e.url ≠ none) ∧
    (∀ e ∈ update_url l slug, e.scrape = true → e.url ≠ none →
      e ∈ get_pages_to_scrape (update_url l slug)) := by
  obtain ⟨hns, hl⟩ := flatten_ok_inv _ l h
  subst hl
  refine ⟨List.filter_sublist _, ?_, ?_⟩
  · intro e he
    simp only [get_pages_to_scrape] at he
    obtain ⟨-, hp⟩ := List.mem_filter.mp he
    rw [Bool.and_eq_true] at hp
    refine ⟨hp.1, ?_⟩
    cases hu : e.url with
    | none => rw [hu] at hp; exact absurd hp.2 (by simp [truthyStr])
    | some s => simp
  · intro e he hsc _hurl
    simp only [get_pages_to_scrape]
    refine List.mem_filter.mpr ⟨he, ?_⟩
    rw [Bool.and_eq_true]
    refine ⟨hsc, ?_⟩
    obtain ⟨a, ha, hae⟩ := List.mem_map.mp he
    subst hae
    have hfacts := preorderForest_entry_facts _ a ha
    exact update_one_scrape_true_url slug a hfacts.2.1 hfacts.2.2.2 hsc

/-- Witness for C4 on the sample forest resolved for site `acme`. -/
theorem get_pages_to_scrape_exact_witness :
    List.Sublist
      (get_pages_to_scrape (update_url (preorderForest sampleForest) "acme"))
      (update_url (preorderForest sampleForest) "acme") ∧
    (∀ e ∈ get_pages_to_scrape (update_url (preorderForest sampleForest) "acme"),
      e.scrape = true ∧ e.url ≠ none) ∧
    (∀ e ∈ update_url (preorderForest sampleForest) "acme",
      e.scrape = true → e.url ≠ none →
      e ∈ get_pages_to_scrape (update_url (preorderForest sampleForest) "acme")) :=
  get_pages_to_scrape_exact sampleForest "acme"
    (preorderForest sampleForest) (by rfl)

/-- C5: after `update_url`, every entry whose `base_url` equals the
link-less sentinel `"http://linkless.header/"` has a null `url`, whatever
the other rules previously wrote into it. -/
theorem update_url_linkless_null (items : List NavbarItemProcessed)
    (site_slug : String) (e : NavbarItemProcessed)
    (he : e ∈ update_url items site_slug)
    (hb : e.base_url = some "http://linkless.header/") :
    e.url = none := by
  obtain ⟨a, -, ha⟩ := List.mem_map.mp he
  subst ha
  have hfr := (update_one_frame site_slug a).2.2.1
  rw [hfr] at hb
  exact update_one_linkless site_slug a hb

/-- Witness for C5 on a concrete link-less header entry. -/
theorem update_url_linkless_null_witness :
    (update_one "acme" linklessSample).url = none :=
  update_url_linkless_null [linklessSample] "acme"
    (update_one "acme" linklessSample) (by simp [update_url]) (by rfl)

/-- C6: after `update_url`, every entry whose `base_url` is non-null,
starts with `"/sites/"` and is not the link-less sentinel has
`url = SITE_ROOT ++ base_url`; and every entry whose `base_url` is null is
returned completely unchanged (in particular its `url` stays null and its
scrape flag stays false). -/
theorem update_url_sites_absolute (items : List NavbarItemProcessed)
    (site_slug : String) :
    (∀ e ∈ update_url items site_slug, ∀ b, e.base_url = some b →
        strStartsWith b "/sites/" = true → b ≠ "http://linkless.header/" →
        e.url = some (SITE_ROOT ++ b)) ∧
    List.Forall₂ (fun a a2 => a.base_url = none → a2 = a)
      items (update_url items site_slug) := by
  constructor
  · intro e he b hb hpre hne
    obtain ⟨a, -, ha⟩ := List.mem_map.mp he
    subst ha
    have hfr := (update_one_frame site_slug a).2.2.1
    rw [hfr] at hb
    exact update_one_sites site_slug a b hb hpre hne
  · induction items with
    | nil => exact List.Forall₂.nil
    | cons a as ih =>
      exact List.Forall₂.cons (fun hnull => update_one_none site_slug a hnull) ih

/-- Witness for C6 on a concrete content-page entry. -/
theorem update_url_sites_absolute_witness :
    (update_one "acme" sitesSample).url =
      some (SITE_ROOT ++ "/sites/acme/about.aspx") :=
  (update_url_sites_absolute [sitesSample] "acme").1
    (update_one "acme" sitesSample) (by simp [update_url])
    "/sites/acme/about.aspx" (by rfl) (by rfl) (by decide)

/-- C7: for every flat list produced by the pipeline (extraction at
top-level depth 0 followed by flattening), the entries' `base_level`
values are exactly the nesting depths of the originating nodes in
pre-order (roots at depth 0, children one deeper), every entry satisfies
`level = base_level + 1`, and this relation is preserved by `update_url`
and by `get_pages_to_scrape`. -/
theorem heading_level_law (raws : List RawNavItem) (slug : String)
    (l : List NavbarItemProcessed)
    (h : flatten_items (get_navbar_items raws 0) = .ok l) :
    l.map (fun e => e.base_level) = forestDepths 0 (get_navbar_items raws 0) ∧
    (∀ e ∈ l, e.level = e.base_level + 1) ∧
    (∀ e ∈ update_url l slug, e.level = e.base_level + 1) ∧
    (∀ e ∈ get_pages_to_scrape (update_url l slug),
      e.level = e.base_level + 1) := by
  obtain ⟨hns, hl⟩ := flatten_ok_inv _ l h
  subst hl
  have hupd : ∀ e ∈ update_url (preorderForest (get_navbar_items raws 0)) slug,
      e.level = e.base_level + 1 := by
    intro e he
    obtain ⟨a, ha, hae⟩ := List.mem_map.mp he
    subst hae
    have hfr := update_one_frame slug a
    rw [hfr.2.2.2.2.2, hfr.2.2.2.2.1]
    exact (preorderForest_entry_facts _ a ha).1
  refine ⟨?_, ?_, hupd, ?_⟩
  · exact preorderForest_base_level_eq_depth _ 0 (get_navbar_items_leveled raws 0)
  · intro e he
    exact (preorderForest_entry_facts _ e he).1
  · intro e he
    simp only [get_pages_to_scrape] at he
    exact hupd e (List.mem_of_mem_filter he)

/-- Witness for C7 on the sample raw payload. -/
theorem heading_level_law_witness :
    (preorderForest (get_navbar_items sampleRaws 0)).map
        (fun e => e.base_level) =
      forestDepths 0 (get_navbar_items sampleRaws 0) ∧
    (∀ e ∈ preorderForest (get_navbar_items sampleRaws 0),
      e.level = e.base_level + 1) ∧
    (∀ e ∈ update_url (preorderForest (get_navbar_items sampleRaws 0)) "acme",
      e.level = e.base_level + 1) ∧
    (∀ e ∈ get_pages_to_scrape
        (update_url (preorderForest (get_navbar_items sampleRaws 0)) "acme"),
      e.level = e.base_level + 1) :=
  heading_level_law sampleRaws "acme"
    (preorderForest (get_navbar_items sampleRaws 0)) (by rfl)

/-- C8: `get_quick_launch_data` fails with three distinct fatal errors —
`PayloadNotFound` when no script string contains the marker key,
`PayloadMalformed` when the marker script is found but the delimiter
pattern does not match, and `SchemaMismatch` when the parsed JSON object
lacks the `"quickLaunch"` key — the three errors are pairwise distinct,
and in every failure case no result value (no partial tree or flat list)
is returned. -/
theorem get_quick_launch_failure_modes (jsonParse : String → Option Json)
    (scripts : List String) :
    (scripts.filter hasMarker = [] →
      get_quick_launch_data jsonParse scripts = .error .PayloadNotFound) ∧
    (∀ s rest, scripts.filter hasMarker = s :: rest →
      reSearchNavigationInfo s = none →
      get_quick_launch_data jsonParse scripts = .error .PayloadMalformed) ∧
    (∀ s rest g fields, scripts.filter hasMarker = s :: rest →
      reSearchNavigationInfo s = some g →
      jsonParse g = some (.obj fields) →
      lookupKey fields "quickLaunch" = none →
      get_quick_launch_data jsonParse scripts = .error .SchemaMismatch) ∧
    (∀ err v, get_quick_launch_data jsonParse scripts = .error err →
      get_quick_launch_data jsonParse scripts ≠ .ok v) ∧
    (ExtractError.PayloadNotFound ≠ ExtractError.PayloadMalformed ∧
     ExtractError.PayloadNotFound ≠ ExtractError.SchemaMismatch ∧
     ExtractError.PayloadMalformed ≠ ExtractError.SchemaMismatch) := by
  refine ⟨?_, ?_, ?_, ?_, by decide⟩
  · intro hfil
    simp [get_quick_launch_data, hfil]
  · intro s rest hfil hre
    simp [get_quick_launch_data, hfil, hre]
  · intro s rest g fields hfil hre hjson hkey
    simp [get_quick_launch_data, hfil, hre, hjson, hkey]
  · intro err v herr hok
    rw [herr] at hok
    simp at hok

/-- Witness for C8: with no marker in any script string, extraction fails
with `PayloadNotFound`. -/
theorem get_quick_launch_failure_modes_witness :
    get_quick_launch_data jsonParseNone ["var x = 1;"] =
      .error .PayloadNotFound :=
  (get_quick_launch_failure_modes jsonParseNone ["var x = 1;"]).1 (by rfl)

/-- C9: the two eligibility fields agree at every pipeline stage: both are
initialized to `false` by `flatten_items`, they are equal on every entry
after `update_url`, and equal on every entry selected by
`get_pages_to_scrape`. -/
theorem scrape_flags_agree (its : List NavbarItem) (slug : String)
    (l : List NavbarItemProcessed) (h : flatten_items its = .ok l) :
    (∀ e ∈ l, e.scrape = false ∧ e.should_be_scraped = false) ∧
    (∀ e ∈ update_url l slug, e.scrape = e.should_be_scraped) ∧
    (∀ e ∈ get_pages_to_scrape (update_url l slug),
      e.scrape = e.should_be_scraped) := by
  obtain ⟨hns, hl⟩ := flatten_ok_inv _ l h
  subst hl
  have hflat : ∀ e ∈ preorderForest its,
      e.scrape = false ∧ e.should_be_scraped = false := by
    intro e he
    have hf := preorderForest_entry_facts its e he
    exact ⟨hf.2.1, hf.2.2.1⟩
  have hupd : ∀ e ∈ update_url (preorderForest its) slug,
      e.scrape = e.should_be_scraped := by
    intro e he
    obtain ⟨a, ha, hae⟩ := List.mem_map.mp he
    subst hae
    obtain ⟨h1, h2⟩ := hflat a ha
    exact update_one_flag_pair slug a (h1.trans h2.symm)
  refine ⟨hflat, hupd, ?_⟩
  intro e he
  simp only [get_pages_to_scrape] at he
  exact hupd e (List.mem_of_mem_filter he)

/-- Witness for C9 on the sample forest. -/
theorem scrape_flags_agree_witness :
    (∀ e ∈ preorderForest sampleForest,
      e.scrape = false ∧ e.should_be_scraped = false) ∧
    (∀ e ∈ update_url (preorderForest sampleForest) "acme",
      e.scrape = e.should_be_scraped) ∧
    (∀ e ∈ get_pages_to_scrape (update_url (preorderForest sampleForest) "acme"),
      e.scrape = e.should_be_scraped) :=
  scrape_flags_agree sampleForest "acme" (preorderForest sampleForest) (by rfl)

/-- C10: `update_url` keeps the length and order of its input and, entry
by entry (the output aligned with the input by `Forall₂`), leaves `title`,
`slug`, `base_url`, `is_external`, `base_level` and `level` unchanged; only
`url`, `scrape` and `should_be_scraped` can differ. -/
theorem update_url_frame (items : List NavbarItemProcessed)
    (site_slug : String) :
    (update_url items site_slug).length = items.length ∧
    List.Forall₂ (fun a a2 =>
        a2.title = a.title ∧ a2.slug = a.slug ∧ a2.base_url = a.base_url ∧
        a2.is_external = a.is_external ∧ a2.base_level = a.base_level ∧
        a2.level = a.level)
      items (update_url items site_slug) := by
  constructor
  · simp [update_url]
  · induction items with
    | nil => exact List.Forall₂.nil
    | cons a as ih =>
      exact List.Forall₂.cons (update_one_frame site_slug a) ih
